import Mathlib

/-!
Verification of the CNTK `TrainingSession` driver
(`Source/CNTKv2LibraryDll/TrainingSession.cpp`).

The C++ code is shallowly embedded below.  Wide strings (`std::wstring`)
are modelled as `List Char`; `size_t` counters as `Nat`; null pointers as
`Option`; the external collaborators (trainer, minibatch source,
filesystem) as explicit oracles.  Every definition is translated directly
from the corresponding source function; line numbers in the doc comments
refer to `TrainingSession.cpp`.
-/

set_option autoImplicit false

namespace CNTK

/-- Model of `std::wstring`: a sequence of characters. -/
abbrev WString := List Char

/-- Builds a `WString` from a Lean string literal (convenience for concrete inputs). -/
def wstr (s : String) : WString := s.toList

/-- Lines 92-96: `isNumber` — a wide string is a number iff it is non-empty and
every character is a decimal digit (`!s.empty() && find_if(..., !isdigit) == s.end()`). -/
def isNumber (s : WString) : Bool :=
  !s.isEmpty && s.all (fun c => c.isDigit)

/-- Line 266: the value `strtol` computes on an all-digit suffix — the decimal
value of the digit characters.  (The C code stores the result in an `int`;
checkpoint indices never approach `INT_MAX`, so the width truncation is not
modelled.) -/
def digitsToNat (s : WString) : Nat :=
  s.foldl (fun a c => a * 10 + (c.toNat - 48)) 0

/-- `std::to_wstring` on a `size_t`: the decimal digit characters. -/
def natToWString (n : Nat) : WString := Nat.toDigits 10 n

/-- Line 17: `const static std::wstring s_checkpointIndex = L"CheckpointIndex";`. -/
def s_checkpointIndex : WString := wstr "CheckpointIndex"

/-- Line 18: `const static std::wstring s_trainingMinibatchSource = L"TrainingMinibatchSource";`. -/
def s_trainingMinibatchSource : WString := wstr "TrainingMinibatchSource"

/-- Line 259: the fixed marker extension `L".ckp"` appended to a candidate path. -/
def ckpExtension : WString := wstr ".ckp"

/-- A CNTK `DictionaryValue` restricted to the two shapes this file stores:
a `size_t` and a nested `Dictionary`. -/
inductive DictionaryValue where
  | sizeT (value : Nat)
  | dict (entries : List (WString × DictionaryValue))

/-- A CNTK `Dictionary`: a key-value map from wide strings to values. -/
abbrev Dictionary := List (WString × DictionaryValue)

/-- `Dictionary::operator[] = v`: replace the value at an existing key, or append. -/
def dictSet (d : Dictionary) (k : WString) (v : DictionaryValue) : Dictionary :=
  match d with
  | [] => [(k, v)]
  | (k', v') :: rest => if k' = k then (k, v) :: rest else (k', v') :: dictSet rest k v

/-- `Dictionary::operator[]` read access: the value stored at a key, if present. -/
def dictGet (d : Dictionary) (k : WString) : Option DictionaryValue :=
  match d with
  | [] => none
  | (k', v') :: rest => if k' = k then some v' else dictGet rest k

/-- Lines 220-222: the external state `Dictionary` that `SaveCheckpoint` assembles:
the current checkpoint index under `s_checkpointIndex` and the training source's
cursor (`GetCheckpointState()`) under `s_trainingMinibatchSource`. -/
def checkpointExternalState (currentCheckpointIndex : Nat) (trainingSourceState : Dictionary) :
    Dictionary :=
  dictSet (dictSet [] s_checkpointIndex (DictionaryValue.sizeT currentCheckpointIndex))
    s_trainingMinibatchSource (DictionaryValue.dict trainingSourceState)

/-- Lines 210-215: `RestoreFromCheckpoint` — the trainer returns the embedded
external-state `Dictionary`; the session reads the checkpoint index under
`s_checkpointIndex` (as a `size_t`) and hands the `Dictionary` stored under
`s_trainingMinibatchSource` back to the training source.  A record missing a
required key (or holding a value of the wrong type) fails: `none`. -/
def RestoreFromCheckpoint (externalState : Dictionary) : Option (Nat × Dictionary) :=
  match dictGet externalState s_checkpointIndex with
  | some (DictionaryValue.sizeT idx) =>
    match dictGet externalState s_trainingMinibatchSource with
    | some (DictionaryValue.dict d) => some (idx, d)
    | _ => none
  | _ => none

/-- The fields of the session object fixed at construction (lines 48-62) and
never mutated afterwards. -/
structure SessionConfig where
  checkpointFrequencyinSamples : Nat
  checkPointFileName : WString
  crossValidationFrequencyInSamples : Nat
  maxNumberOfSamples : Nat
  restoreFromCheckpointIfExists : Bool
  saveAllCheckpoints : Bool
  parallelAfterSamples : Nat
  workerRank : Nat
  numberOfWorkers : Nat
  deriving DecidableEq, Repr

/-- The fields of the session object mutated by the driver loop:
`m_currentCheckpointIndex` and `m_currentCrossValidationIndex` (both 0 at
construction, lines 53 and 63). -/
structure SessionCounters where
  currentCheckpointIndex : Nat
  currentCrossValidationIndex : Nat
  deriving DecidableEq, Repr

/-- The result of `dynamic_pointer_cast<DistributedLearner>` on one parameter
learner (lines 82-88): the warm-up period `ParallelizationAfter()` and the
communicator's rank and worker count. -/
structure DistributedLearnerInfo where
  parallelizationAfter : Nat
  globalRank : Nat
  numberOfWorkers : Nat
  deriving DecidableEq, Repr

/-- Lines 36-90: the `TrainingSession` constructor.  Null pointers are `none`;
the trainer's only content the constructor reads is `ParameterLearners()`,
modelled as the list of cast results.  A failed validation check
(`InvalidArgument`) is `Except.error` with the source's message; on success the
constructed object is the config plus zero-initialized counters. -/
def TrainingSession.construct
    (trainingSource : Option Unit)
    (trainer : Option (List (Option DistributedLearnerInfo)))
    (modelInputToMinibatchSourceStream : List (Nat × Nat))
    (checkpointFrequencyInSamples : Nat)
    (checkPointFileName : WString)
    (crossValidationSource : Option Unit)
    (crossValidationFrequencyInSamples : Nat)
    (restoreFromCheckpointIfExists : Bool)
    (saveAllCheckpoints : Bool)
    (maxNumberOfSamples : Nat) :
    Except WString (SessionConfig × SessionCounters) :=
  if trainingSource.isNone then
    Except.error (wstr "Training minibatch source is not allowed to be null.")
  else if trainer.isNone then
    Except.error (wstr "Trainer is not allowed to be null.")
  else if modelInputToMinibatchSourceStream.isEmpty then
    Except.error (wstr "Input mapping is not allowed to be empty.")
  else if checkPointFileName.isEmpty && checkpointFrequencyInSamples != 0 then
    Except.error (wstr "Checkpoint file name is not allowed to be empty.")
  else if crossValidationSource.isNone && crossValidationFrequencyInSamples != 0 then
    Except.error (wstr "Cross validation minibatch source is not allowed to be empty.")
  else
    -- Lines 78-89: fold over the learners, taking the maximum warm-up period
    -- and the (last seen) distributed worker's rank and worker count.
    let learners := trainer.getD []
    let distInfo := learners.foldl
      (fun (acc : Nat × Nat × Nat) l =>
        match l with
        | none => acc
        | some d => (max acc.1 d.parallelizationAfter, d.globalRank, d.numberOfWorkers))
      (0, 0, 1)
    Except.ok
      ({ checkpointFrequencyinSamples := checkpointFrequencyInSamples
         checkPointFileName := checkPointFileName
         crossValidationFrequencyInSamples := crossValidationFrequencyInSamples
         maxNumberOfSamples := maxNumberOfSamples
         restoreFromCheckpointIfExists := restoreFromCheckpointIfExists
         saveAllCheckpoints := saveAllCheckpoints
         parallelAfterSamples := distInfo.1
         workerRank := distInfo.2.1
         numberOfWorkers := distInfo.2.2 },
       { currentCheckpointIndex := 0, currentCrossValidationIndex := 0 })

/-- The observable actions the driver loop performs each iteration. -/
inductive Event where
  /-- A call to `GetNextMinibatch` on the training source with the given
  worker rank and worker count (line 189/202). -/
  | fetchTraining (workerRank numberOfWorkers : Nat)
  /-- A call to `m_trainer->TrainMinibatch` (line 118), recording whether the
  minibatch passed to it was empty. -/
  | trainStep (minibatchEmpty : Bool)
  /-- A call to `SaveCheckpoint(last)` (lines 131 and 161). -/
  | saveCheckpoint (last : Bool)
  /-- A call to `CrossValidate` (line 175), recording the (just updated)
  cross-validation index. -/
  | crossValidation (index : Nat)
  deriving DecidableEq, Repr

/-- Lines 178-190: `GetTrainingMinibatch` — the `(workerRank, numberOfWorkers)`
pair it passes to `GetNextMinibatch`.  The locals start as rank 0 / count 1 and
are overwritten with the configured values when
`m_parallelAfterSamples >= m_trainer->TotalNumberOfSamplesSeen()`. -/
def GetTrainingMinibatch (cfg : SessionConfig) (totalNumberOfSamplesSeen : Nat) : Nat × Nat :=
  if cfg.parallelAfterSamples ≥ totalNumberOfSamplesSeen then
    (cfg.workerRank, cfg.numberOfWorkers)
  else
    (0, 1)

/-- Lines 150-162: `PerformCheckPointIfNeeded`, evaluated at the trainer's
post-step `TotalNumberOfSamplesSeen()`.  Returns the updated counters and the
checkpoint-save events performed (`SaveCheckpoint(false)` when due). -/
def PerformCheckPointIfNeeded (cfg : SessionConfig) (ctr : SessionCounters)
    (totalNumberOfSamplesSeen : Nat) : SessionCounters × List Event :=
  if cfg.checkpointFrequencyinSamples = 0 then (ctr, [])
  else
    let checkpointIndex := totalNumberOfSamplesSeen / cfg.checkpointFrequencyinSamples
    if checkpointIndex ≤ ctr.currentCheckpointIndex then (ctr, [])
    else
      ({ ctr with currentCheckpointIndex := checkpointIndex }, [Event.saveCheckpoint false])

/-- Lines 164-176: `PerformCrossValidationIfNeeded` — the same due-ness rule with
the cross-validation frequency and index; when due it calls `CrossValidate`
(modelled as an event carrying the updated index, which is what
`OnCrossValidationEnd` reports). -/
def PerformCrossValidationIfNeeded (cfg : SessionConfig) (ctr : SessionCounters)
    (totalNumberOfSamplesSeen : Nat) : SessionCounters × List Event :=
  if cfg.crossValidationFrequencyInSamples = 0 then (ctr, [])
  else
    let crossValidationIndex :=
      totalNumberOfSamplesSeen / cfg.crossValidationFrequencyInSamples
    if crossValidationIndex ≤ ctr.currentCrossValidationIndex then (ctr, [])
    else
      ({ ctr with currentCrossValidationIndex := crossValidationIndex },
       [Event.crossValidation crossValidationIndex])

/-- The external trainer's behavior for one `TrainMinibatch` call: the returned
continue flag and the value `TotalNumberOfSamplesSeen()` reports afterwards. -/
structure TrainerStepResult where
  continueTraining : Bool
  totalSamplesAfter : Nat
  deriving DecidableEq, Repr

/-- The external behavior observed during one loop iteration: whether the
training source yields a non-empty minibatch if fetched, and the trainer's step
result. -/
structure IterOracle where
  fetchNonEmpty : Bool
  step : TrainerStepResult
  deriving DecidableEq, Repr

/-- Lines 110-125: one iteration of the `Train` loop body, entered with the
trainer's pre-step `TotalNumberOfSamplesSeen()`.  If the count is still below
`m_maxNumberOfSamples` the minibatch is fetched (line 112, using the worker
selection of `GetTrainingMinibatch`), otherwise it is cleared (line 114).  The
step runs, then the checkpoint and cross-validation checks in that order. -/
def TrainIteration (cfg : SessionConfig) (ctr : SessionCounters)
    (totalNumberOfSamplesSeen : Nat) (o : IterOracle) : SessionCounters × List Event :=
  let fetchNew := totalNumberOfSamplesSeen < cfg.maxNumberOfSamples
  let sel := GetTrainingMinibatch cfg totalNumberOfSamplesSeen
  let fetchEvents := if fetchNew then [Event.fetchTraining sel.1 sel.2] else []
  let minibatchEmpty := if fetchNew then !o.fetchNonEmpty else true
  let afterCkpt := PerformCheckPointIfNeeded cfg ctr o.step.totalSamplesAfter
  let afterCv := PerformCrossValidationIfNeeded cfg afterCkpt.1 o.step.totalSamplesAfter
  (afterCv.1, fetchEvents ++ [Event.trainStep minibatchEmpty] ++ afterCkpt.2 ++ afterCv.2)

/-- Lines 108-126: the `while (shouldTrain)` loop, driven by a finite list of
per-iteration oracle entries (the trainer's and source's external behavior).
The loop exits when a step returns `continueTraining = false`; if the oracle is
exhausted while the loop still wants to run, the run's remainder is unknown and
the result is `none`. -/
def TrainLoop (cfg : SessionConfig) (ctr : SessionCounters)
    (totalNumberOfSamplesSeen : Nat) :
    List IterOracle → Option (SessionCounters × List Event)
  | [] => none
  | o :: rest =>
    let iter := TrainIteration cfg ctr totalNumberOfSamplesSeen o
    if o.step.continueTraining then
      match TrainLoop cfg iter.1 o.step.totalSamplesAfter rest with
      | none => none
      | some (ctrf, evsf) => some (ctrf, iter.2 ++ evsf)
    else
      some (iter.1, iter.2)

/-- Lines 98-133: `Train`.  `shouldTrain` starts as `m_maxNumberOfSamples > 0`
(line 101), so a zero budget skips the loop entirely; after the loop, a final
`SaveCheckpoint(true)` runs whenever `m_checkpointFrequencyinSamples > 0`
(lines 128-132).  The restore-on-start call (lines 104-105) acts on the trainer
and source; its effect is modelled by the initial counters and sample count
passed in (see `RestoreCheckpointTarget` for the restore logic itself). -/
def Train (cfg : SessionConfig) (ctr : SessionCounters)
    (totalNumberOfSamplesSeen : Nat) (os : List IterOracle) :
    Option (SessionCounters × List Event) :=
  let finalEvents : List Event :=
    if cfg.checkpointFrequencyinSamples > 0 then [Event.saveCheckpoint true] else []
  if cfg.maxNumberOfSamples > 0 then
    match TrainLoop cfg ctr totalNumberOfSamplesSeen os with
    | none => none
    | some (ctrf, evs) => some (ctrf, evs ++ finalEvents)
  else
    some (ctr, finalEvents)

/-- Recognizes a `trainStep` event. -/
def isTrainStep : Event → Bool
  | Event.trainStep _ => true
  | _ => false

/-- Recognizes a training-data fetch event. -/
def isFetch : Event → Bool
  | Event.fetchTraining _ _ => true
  | _ => false

/-- Recognizes a final (`last = true`) checkpoint save. -/
def isFinalSave : Event → Bool
  | Event.saveCheckpoint true => true
  | _ => false

/-- The number of `TrainMinibatch` calls in a trace. -/
def countTrainSteps (evs : List Event) : Nat := (evs.filter isTrainStep).length

/-- The number of training-data fetches in a trace. -/
def countFetch (evs : List Event) : Nat := (evs.filter isFetch).length

/-- The number of final checkpoint saves in a trace. -/
def countFinalSaves (evs : List Event) : Nat := (evs.filter isFinalSave).length

/-- The external behavior of one cross-validation fetch: whether the
cross-validation source yields a non-empty minibatch, and the value
`TestMinibatch` returns for it.  (The C++ accumulates `double`s; the exact
accumulation is modelled over `Rat`.) -/
structure CVFetch where
  nonEmpty : Bool
  testError : Rat
  deriving DecidableEq, Repr

/-- The cross-validation-end notification (`OnCrossValidationEnd`, line 147).
The C++ reports `accumulatedError / numberOfMinibatches` as a `double`; the
event records the two operands of that division (so a zero divisor is visible
as `numberOfMinibatches = 0`). -/
inductive CVEvent where
  | crossValidationEnd (index : Nat) (accumulatedError : Rat) (numberOfMinibatches : Nat)
  deriving DecidableEq, Repr

/-- Lines 141-145: the `while(GetCrossValidationMinibatch(...), !minibatch.empty())`
loop — accumulate the test error and count each non-empty minibatch; stop at the
first empty fetch (a source that is exhausted, i.e. an exhausted oracle list,
also yields an empty fetch). -/
def crossValidateLoop (accumulatedError : Rat) (numberOfMinibatches : Nat) :
    List CVFetch → Rat × Nat
  | [] => (accumulatedError, numberOfMinibatches)
  | f :: rest =>
    if f.nonEmpty then
      crossValidateLoop (accumulatedError + f.testError) (numberOfMinibatches + 1) rest
    else
      (accumulatedError, numberOfMinibatches)

/-- Lines 135-148: `CrossValidate` — runs the evaluation loop and then fires
`OnCrossValidationEnd(m_currentCrossValidationIndex, accumulatedError/numberOfMinibatches)`
exactly once, unconditionally. -/
def CrossValidate (currentCrossValidationIndex : Nat) (fetches : List CVFetch) :
    List CVEvent :=
  let r := crossValidateLoop 0 0 fetches
  [CVEvent.crossValidationEnd currentCrossValidationIndex r.1 r.2]

/-- The prefix of fetches the cross-validation loop consumes as data. -/
def leadingNonEmptyFetches (fetches : List CVFetch) : List CVFetch :=
  fetches.takeWhile fun f => f.nonEmpty

/-- The number of non-empty minibatches the cross-validation loop processes. -/
def numberOfNonEmptyMinibatches (fetches : List CVFetch) : Nat :=
  (leadingNonEmptyFetches fetches).length

/-- The total test error over the non-empty minibatches, accumulated left to
right from `0` exactly as the loop does. -/
def accumulatedTestError (fetches : List CVFetch) : Rat :=
  (leadingNonEmptyFetches fetches).foldl (fun a f => a + f.testError) 0

/-- The calls the checkpoint store issues to its external collaborators
(filesystem, trainer, notifications). -/
inductive ExtCall where
  /-- `msra::files::make_intermediate_dirs` (line 234). -/
  | makeIntermediateDirs (path : WString)
  /-- `OnCheckpointStart` (line 219). -/
  | onCheckpointStart (index : Nat)
  /-- `m_trainer->SaveCheckpoint(path, externalState)` (line 227). -/
  | trainerSaveCheckpoint (path : WString) (externalState : Dictionary)
  /-- `OnCheckpointEnd` (line 228). -/
  | onCheckpointEnd (index : Nat)
  /-- `RestoreFromCheckpoint(path)` — a restore delegated to the trainer
  (lines 239 and 279). -/
  | trainerRestoreCheckpoint (path : WString)

/-- Recognizes an intermediate-directory-creation call. -/
def ExtCall.isMakeIntermediateDirs : ExtCall → Bool
  | ExtCall.makeIntermediateDirs _ => true
  | _ => false

/-- Lines 224-226: the local variable `checkpointFile` computed inside
`SaveCheckpoint` — the configured path, with the current checkpoint index
appended when `m_saveAllCheckpoints && !last`. -/
def checkpointFileVariable (cfg : SessionConfig) (currentCheckpointIndex : Nat)
    (last : Bool) : WString :=
  if cfg.saveAllCheckpoints && !last then
    cfg.checkPointFileName ++ natToWString currentCheckpointIndex
  else
    cfg.checkPointFileName

/-- Lines 217-229: `SaveCheckpoint(last)` as the sequence of external calls it
performs.  Note that line 227 passes `m_checkPointFileName` to the trainer:
the local `checkpointFile` (see `checkpointFileVariable`) is computed on
lines 224-226 but never used. -/
def SaveCheckpoint (cfg : SessionConfig) (ctr : SessionCounters)
    (trainingSourceState : Dictionary) (last : Bool) : List ExtCall :=
  let externalState := checkpointExternalState ctr.currentCheckpointIndex trainingSourceState
  -- the local `checkpointFile` (`checkpointFileVariable cfg ctr.currentCheckpointIndex last`)
  -- is dead code in the source: it appears in no call below
  [ExtCall.onCheckpointStart ctr.currentCheckpointIndex,
   ExtCall.trainerSaveCheckpoint cfg.checkPointFileName externalState,
   ExtCall.onCheckpointEnd ctr.currentCheckpointIndex]

/-- The path argument of the first `trainerSaveCheckpoint` call in a trace. -/
def trainerSavePath : List ExtCall → Option WString
  | [] => none
  | ExtCall.trainerSaveCheckpoint p _ :: _ => some p
  | _ :: rest => trainerSavePath rest

/-- One entry of the parent-directory iteration (lines 249-275): the full path
the `directory_iterator` reports and whether it is a regular file. -/
structure DirEntry where
  path : WString
  isRegularFile : Bool
  deriving DecidableEq, Repr

/-- The filesystem as the checkpoint-discovery code observes it:
`boost::filesystem::exists` on a path, and the listing of the checkpoint
path's parent directory. -/
structure FileSystem where
  fileExists : WString → Bool
  listing : List DirEntry

/-- The scan state of the discovery loop: `int maxValue = -1` and
`wstring candidate` (lines 246-247). -/
structure ScanAcc where
  maxValue : Int
  candidate : WString
  deriving DecidableEq, Repr

/-- Lines 249-275: the body of the discovery loop for one directory entry.
Entries that are not regular files, do not start with the configured
checkpoint path, have a non-numeric remaining suffix, or lack the side marker
file `path + ".ckp"` are skipped; otherwise the suffix is parsed and a
strictly larger value replaces the current best candidate. -/
def scanEntry (checkPointFileName : WString) (fileExists : WString → Bool)
    (acc : ScanAcc) (e : DirEntry) : ScanAcc :=
  if !e.isRegularFile || !(List.isPrefixOf checkPointFileName e.path) then acc
  else
    let suffix := e.path.drop checkPointFileName.length
    if !(isNumber suffix) || !(fileExists (e.path ++ ckpExtension)) then acc
    else
      let value : Int := Int.ofNat (digitsToNat suffix)
      if acc.maxValue < value then { maxValue := value, candidate := e.path } else acc

/-- The loop's per-entry filter, for stating properties: a directory entry is a
restore candidate iff it survives all the skips of `scanEntry`. -/
def isValidCandidate (checkPointFileName : WString) (fileExists : WString → Bool)
    (e : DirEntry) : Bool :=
  e.isRegularFile && List.isPrefixOf checkPointFileName e.path &&
    isNumber (e.path.drop checkPointFileName.length) &&
    fileExists (e.path ++ ckpExtension)

/-- The numeric value of an entry's suffix after the configured path. -/
def suffixValue (checkPointFileName : WString) (path : WString) : Nat :=
  digitsToNat (path.drop checkPointFileName.length)

/-- Lines 231-280: `RestoreCheckpoint` — which path the session restores from.
If the bare configured path exists it is used directly (lines 237-241);
otherwise the parent directory is scanned and the best numbered candidate is
used (lines 244-279); if the candidate string stays empty, the function
returns without restoring (`none`: training starts fresh). -/
def RestoreCheckpointTarget (cfg : SessionConfig) (fs : FileSystem) : Option WString :=
  if fs.fileExists cfg.checkPointFileName then some cfg.checkPointFileName
  else
    let final := fs.listing.foldl (scanEntry cfg.checkPointFileName fs.fileExists)
      { maxValue := -1, candidate := [] }
    if final.candidate.isEmpty then none else some final.candidate

/-- Lines 231-280: the external calls `RestoreCheckpoint` performs: it always
creates the intermediate directories first (line 234), then restores from the
discovered target if there is one. -/
def RestoreCheckpointCalls (cfg : SessionConfig) (fs : FileSystem) : List ExtCall :=
  ExtCall.makeIntermediateDirs cfg.checkPointFileName ::
    (match RestoreCheckpointTarget cfg fs with
     | some p => [ExtCall.trainerRestoreCheckpoint p]
     | none => [])

/-! ### Concrete inputs used to evaluate the model -/

/-- A baseline session configuration for concrete evaluations. -/
def cfgBase : SessionConfig :=
  { checkpointFrequencyinSamples := 0
    checkPointFileName := []
    crossValidationFrequencyInSamples := 0
    maxNumberOfSamples := 0
    restoreFromCheckpointIfExists := false
    saveAllCheckpoints := false
    parallelAfterSamples := 0
    workerRank := 0
    numberOfWorkers := 1 }

/-- A distributed configuration: warm-up threshold 10, this worker has rank 2
among 4 workers. -/
def cfgWarmup : SessionConfig :=
  { cfgBase with parallelAfterSamples := 10, workerRank := 2, numberOfWorkers := 4 }

/-- A save-all-checkpoints configuration with path `ckpt`. -/
def cfgSaveAll : SessionConfig :=
  { cfgBase with saveAllCheckpoints := true, checkPointFileName := wstr "ckpt",
                 checkpointFrequencyinSamples := 30 }

/-- A first-run configuration: restore-on-start disabled, checkpointing into a
subdirectory. -/
def cfgFirstRun : SessionConfig :=
  { cfgBase with checkPointFileName := wstr "out/ckpt",
                 checkpointFrequencyinSamples := 30 }

/-- A two-worker run with a total budget of 10 samples and no checkpointing. -/
def cfgQuota : SessionConfig :=
  { cfgBase with maxNumberOfSamples := 10, workerRank := 1, numberOfWorkers := 2 }

/-- Ten loop iterations: every fetch yields data, the trainer adds one sample
per step and stops after the tenth step. -/
def osQuota : List IterOracle :=
  (List.range 10).map fun i =>
    { fetchNonEmpty := true
      step := { continueTraining := decide (i < 9), totalSamplesAfter := i + 1 } }

/-- A budget-5 configuration for exercising the empty-minibatch phase. -/
def cfgBudget5 : SessionConfig := { cfgBase with maxNumberOfSamples := 5 }

/-- One oracle entry whose fetch would yield data. -/
def oracleNonEmpty : IterOracle :=
  { fetchNonEmpty := true, step := { continueTraining := true, totalSamplesAfter := 8 } }

/-- Checkpoint frequency 30 and cross-validation frequency 50. -/
def cfgFreqs : SessionConfig :=
  { cfgBase with checkpointFrequencyinSamples := 30, checkPointFileName := wstr "ckpt",
                 crossValidationFrequencyInSamples := 50 }

/-- Counters: one checkpoint already taken, no cross-validation yet. -/
def ctrOne : SessionCounters :=
  { currentCheckpointIndex := 1, currentCrossValidationIndex := 0 }

/-- Zero counters. -/
def ctrZero : SessionCounters :=
  { currentCheckpointIndex := 0, currentCrossValidationIndex := 0 }

/-- A zero-budget configuration with checkpointing enabled. -/
def cfgZeroBudget : SessionConfig :=
  { cfgBase with checkpointFrequencyinSamples := 30, checkPointFileName := wstr "ckpt" }

/-- A directory with numbered checkpoints `ckpt3`, `ckpt10`, `ckpt2`, each with
its `.ckp` marker, and no bare `ckpt` file. -/
def fsNumbered : FileSystem :=
  { fileExists := fun p =>
      p == wstr "ckpt3.ckp" || p == wstr "ckpt10.ckp" || p == wstr "ckpt2.ckp"
    listing := [{ path := wstr "ckpt3", isRegularFile := true },
                { path := wstr "ckpt10", isRegularFile := true },
                { path := wstr "ckpt2", isRegularFile := true }] }

/-- A filesystem where the bare checkpoint path exists. -/
def fsBare : FileSystem :=
  { fileExists := fun p => p == wstr "ckpt", listing := [] }

/-- An empty filesystem. -/
def fsEmpty : FileSystem :=
  { fileExists := fun _ => false, listing := [] }

/-- The discovery configuration used with the concrete filesystems. -/
def cfgDiscovery : SessionConfig :=
  { cfgBase with checkPointFileName := wstr "ckpt", checkpointFrequencyinSamples := 30 }

/-- A cross-validation run whose very first fetch is empty. -/
def cvExhausted : List CVFetch := [{ nonEmpty := false, testError := 3 }]

/-! ### Theorems -/

/-- C1: the claim says fetches below the warm-up threshold use rank 0 / count 1
and fetches at or above it use the configured rank/count.  The code has the
comparison inverted: with threshold 10 and configured rank 2 of 4 workers, a
fetch at 0 samples seen (strictly below the threshold) uses the configured
rank 2 / count 4, and a fetch at 20 samples (above the threshold) uses
rank 0 / count 1 — the exact opposite of the claim. -/
theorem GetTrainingMinibatch_warmup_inverted :
    GetTrainingMinibatch cfgWarmup 0 = (2, 4) ∧
    GetTrainingMinibatch cfgWarmup 10 = (2, 4) ∧
    GetTrainingMinibatch cfgWarmup 20 = (0, 1) ∧
    ((2, 4) : Nat × Nat) ≠ (0, 1) := by decide

/-- C3: the claim says that with save-all-checkpoints enabled a non-final
checkpoint is written to the configured path with the checkpoint index
appended.  The code computes that suffixed name (`ckpt3`) into the local
`checkpointFile` but then passes the bare `m_checkPointFileName` (`ckpt`) to
the trainer, so every checkpoint, final or not, is written to the bare path. -/
theorem SaveCheckpoint_ignores_numbered_path :
    trainerSavePath (SaveCheckpoint cfgSaveAll
      { currentCheckpointIndex := 3, currentCrossValidationIndex := 0 } [] false) =
      some (wstr "ckpt") ∧
    checkpointFileVariable cfgSaveAll 3 false = wstr "ckpt3" ∧
    wstr "ckpt" ≠ wstr "ckpt3" := by decide

/-- C7 counterexample: on a first run with restore-on-start disabled, the
sequence of external calls `SaveCheckpoint` performs contains no
intermediate-directory creation — the claim that the Save operation ensures
the checkpoint directory exists is false (only `RestoreCheckpoint` calls
`make_intermediate_dirs`, line 234). -/
theorem SaveCheckpoint_never_creates_directories :
    ((SaveCheckpoint cfgFirstRun ctrZero [] false).all
      fun c => ! c.isMakeIntermediateDirs) = true := by decide

/-- C7 amended: intermediate directories are created only by
`RestoreCheckpoint` (its first external call, line 234), which runs only when
restore-on-start is enabled; `SaveCheckpoint` itself performs no directory
creation. -/
theorem make_intermediate_dirs_only_on_restore :
    (∀ (cfg : SessionConfig) (ctr : SessionCounters) (st : Dictionary) (last : Bool),
      ((SaveCheckpoint cfg ctr st last).all fun c => ! c.isMakeIntermediateDirs) = true) ∧
    (∀ (cfg : SessionConfig) (fs : FileSystem),
      (RestoreCheckpointCalls cfg fs).head? =
        some (ExtCall.makeIntermediateDirs cfg.checkPointFileName)) :=
  ⟨fun _ _ _ _ => rfl, fun _ _ => rfl⟩

/-- C8: restoring from the external-state record that `SaveCheckpoint` writes
(the checkpoint index under `CheckpointIndex` and the data-source cursor under
`TrainingMinibatchSource`) yields back exactly the saved index and cursor. -/
theorem SaveCheckpoint_RestoreFromCheckpoint_roundtrip (idx : Nat) (cursor : Dictionary) :
    RestoreFromCheckpoint (checkpointExternalState idx cursor) = some (idx, cursor) := rfl

/-- The cross-validation loop with accumulator `a` and counter `n` adds up the
test errors of the leading non-empty fetches and counts them. -/
theorem crossValidateLoop_eq (l : List CVFetch) : ∀ (a : Rat) (n : Nat),
    crossValidateLoop a n l =
      ((l.takeWhile fun f => f.nonEmpty).foldl (fun x f => x + f.testError) a,
       n + (l.takeWhile fun f => f.nonEmpty).length) := by
  induction l with
  | nil => intro a n; simp [crossValidateLoop]
  | cons f rest ih =>
    intro a n
    cases hf : f.nonEmpty with
    | true =>
      simp only [crossValidateLoop, hf, if_true, List.takeWhile_cons, ih,
        List.foldl_cons, List.length_cons, Prod.mk.injEq]
      exact ⟨trivial, by omega⟩
    | false =>
      simp [crossValidateLoop, hf, List.takeWhile_cons]

/-- C10: every call to `CrossValidate` fires the cross-validation-end
notification exactly once, reporting the accumulated test error and, as the
divisor of the reported average, the number of non-empty minibatches fetched;
when the first fetch is already empty (or the source yields nothing at all)
that divisor is zero. -/
theorem CrossValidate_fires_once (idx : Nat) (l : List CVFetch) :
    CrossValidate idx l =
      [CVEvent.crossValidationEnd idx (accumulatedTestError l)
        (numberOfNonEmptyMinibatches l)] ∧
    ((l.head?.map fun f => f.nonEmpty).getD false = false →
      numberOfNonEmptyMinibatches l = 0) := by
  constructor
  · simp [CrossValidate, crossValidateLoop_eq, accumulatedTestError,
      numberOfNonEmptyMinibatches, leadingNonEmptyFetches]
  · intro h
    cases l with
    | nil => rfl
    | cons f rest =>
      simp at h
      simp [numberOfNonEmptyMinibatches, leadingNonEmptyFetches, List.takeWhile_cons, h]

/-- C10 witness: a cross-validation source whose first fetch is empty reports
divisor zero. -/
theorem CrossValidate_fires_once_witness :
    ((cvExhausted.head?.map fun f => f.nonEmpty).getD false = false) ∧
    numberOfNonEmptyMinibatches cvExhausted = 0 :=
  ⟨by decide, (CrossValidate_fires_once 5 cvExhausted).2 (by decide)⟩

/-- Closed form of `PerformCheckPointIfNeeded` for a positive frequency. -/
theorem performCheckPoint_spec (cfg : SessionConfig) (ctr : SessionCounters) (S : Nat)
    (hF' : cfg.checkpointFrequencyinSamples ≠ 0) :
    PerformCheckPointIfNeeded cfg ctr S =
      if ctr.currentCheckpointIndex < S / cfg.checkpointFrequencyinSamples
      then ({ ctr with currentCheckpointIndex := S / cfg.checkpointFrequencyinSamples },
            [Event.saveCheckpoint false])
      else (ctr, []) := by
  simp only [PerformCheckPointIfNeeded, hF', if_false, ite_false]
  by_cases h : S / cfg.checkpointFrequencyinSamples ≤ ctr.currentCheckpointIndex
  · rw [if_pos h, if_neg (by omega)]
  · rw [if_neg h, if_pos (by omega)]

/-- Closed form of `PerformCrossValidationIfNeeded` for a positive frequency. -/
theorem performCrossValidation_spec (cfg : SessionConfig) (ctr : SessionCounters) (S : Nat)
    (hG' : cfg.crossValidationFrequencyInSamples ≠ 0) :
    PerformCrossValidationIfNeeded cfg ctr S =
      if ctr.currentCrossValidationIndex < S / cfg.crossValidationFrequencyInSamples
      then ({ ctr with
                currentCrossValidationIndex := S / cfg.crossValidationFrequencyInSamples },
            [Event.crossValidation (S / cfg.crossValidationFrequencyInSamples)])
      else (ctr, []) := by
  simp only [PerformCrossValidationIfNeeded, hG', if_false, ite_false]
  by_cases h :
      S / cfg.crossValidationFrequencyInSamples ≤ ctr.currentCrossValidationIndex
  · rw [if_pos h, if_neg (by omega)]
  · rw [if_neg h, if_pos (by omega)]

/-- C4: with positive frequencies, both periodic checks fire exactly when
`floor(S / F)` exceeds the stored index, fire at most one event per
evaluation (even when a step's sample delta exceeds `F`), set the stored
index to `floor(S / F)` on firing, leave the other check's counter untouched,
never fire twice when re-evaluated at the same sample count, and fire only
after the multiple `F * (currentIndex + 1)` has been reached. -/
theorem dueness_check (cfg : SessionConfig) (ctr : SessionCounters) (S : Nat)
    (hF : 0 < cfg.checkpointFrequencyinSamples)
    (hG : 0 < cfg.crossValidationFrequencyInSamples) :
    ((PerformCheckPointIfNeeded cfg ctr S).2 =
       if ctr.currentCheckpointIndex < S / cfg.checkpointFrequencyinSamples
       then [Event.saveCheckpoint false] else []) ∧
    ((PerformCheckPointIfNeeded cfg ctr S).1.currentCheckpointIndex =
       if ctr.currentCheckpointIndex < S / cfg.checkpointFrequencyinSamples
       then S / cfg.checkpointFrequencyinSamples else ctr.currentCheckpointIndex) ∧
    ((PerformCheckPointIfNeeded cfg ctr S).1.currentCrossValidationIndex =
       ctr.currentCrossValidationIndex) ∧
    ((PerformCheckPointIfNeeded cfg (PerformCheckPointIfNeeded cfg ctr S).1 S).2 = []) ∧
    (ctr.currentCheckpointIndex < S / cfg.checkpointFrequencyinSamples →
       cfg.checkpointFrequencyinSamples * (ctr.currentCheckpointIndex + 1) ≤ S) ∧
    ((PerformCrossValidationIfNeeded cfg ctr S).2 =
       if ctr.currentCrossValidationIndex < S / cfg.crossValidationFrequencyInSamples
       then [Event.crossValidation (S / cfg.crossValidationFrequencyInSamples)] else []) ∧
    ((PerformCrossValidationIfNeeded cfg ctr S).1.currentCrossValidationIndex =
       if ctr.currentCrossValidationIndex < S / cfg.crossValidationFrequencyInSamples
       then S / cfg.crossValidationFrequencyInSamples
       else ctr.currentCrossValidationIndex) ∧
    ((PerformCrossValidationIfNeeded cfg ctr S).1.currentCheckpointIndex =
       ctr.currentCheckpointIndex) ∧
    ((PerformCrossValidationIfNeeded cfg
        (PerformCrossValidationIfNeeded cfg ctr S).1 S).2 = []) ∧
    (ctr.currentCrossValidationIndex < S / cfg.crossValidationFrequencyInSamples →
       cfg.crossValidationFrequencyInSamples * (ctr.currentCrossValidationIndex + 1) ≤ S) := by
  have hF' : cfg.checkpointFrequencyinSamples ≠ 0 := Nat.pos_iff_ne_zero.mp hF
  have hG' : cfg.crossValidationFrequencyInSamples ≠ 0 := Nat.pos_iff_ne_zero.mp hG
  have hcross : ∀ (c F : Nat), 0 < F → c < S / F → F * (c + 1) ≤ S := by
    intro c F hFpos hlt
    have h2 : (c + 1) * F ≤ S := (Nat.le_div_iff_mul_le hFpos).mp hlt
    calc F * (c + 1) = (c + 1) * F := Nat.mul_comm _ _
      _ ≤ S := h2
  refine ⟨?_, ?_, ?_, ?_, fun h => hcross _ _ hF h, ?_, ?_, ?_, ?_,
    fun h => hcross _ _ hG h⟩ <;>
    by_cases h1 : ctr.currentCheckpointIndex < S / cfg.checkpointFrequencyinSamples <;>
      by_cases h2 :
        ctr.currentCrossValidationIndex < S / cfg.crossValidationFrequencyInSamples <;>
        simp [performCheckPoint_spec, performCrossValidation_spec, hF', hG', h1, h2]

/-- C4 witness: frequencies 30 and 50, one checkpoint already taken, evaluated
at 65 cumulative samples — the checkpoint check fires (65/30 = 2 > 1) and the
cross-validation check fires (65/50 = 1 > 0). -/
theorem dueness_check_witness :
    0 < cfgFreqs.checkpointFrequencyinSamples ∧
    0 < cfgFreqs.crossValidationFrequencyInSamples ∧
    ((PerformCheckPointIfNeeded cfgFreqs ctrOne 65).2 =
      if ctrOne.currentCheckpointIndex < 65 / cfgFreqs.checkpointFrequencyinSamples
      then [Event.saveCheckpoint false] else []) ∧
    ((PerformCrossValidationIfNeeded cfgFreqs ctrOne 65).2 =
      if ctrOne.currentCrossValidationIndex <
          65 / cfgFreqs.crossValidationFrequencyInSamples
      then [Event.crossValidation (65 / cfgFreqs.crossValidationFrequencyInSamples)]
      else []) :=
  ⟨by decide, by decide,
   (dueness_check cfgFreqs ctrOne 65 (by decide) (by decide)).1,
   (dueness_check cfgFreqs ctrOne 65 (by decide) (by decide)).2.2.2.2.2.1⟩

/-- C9: construction fails (with an `InvalidArgument` error, leaving no
constructed session) exactly when the training source is null, the trainer is
null, the input mapping is empty, the checkpoint file name is empty while the
checkpoint frequency is positive, or the cross-validation source is null while
the cross-validation frequency is positive. -/
theorem construct_validation (trainingSource : Option Unit)
    (trainer : Option (List (Option DistributedLearnerInfo)))
    (mapping : List (Nat × Nat)) (ckFreq : Nat) (ckName : WString)
    (cvSource : Option Unit) (cvFreq : Nat) (restore saveAll : Bool) (maxS : Nat) :
    (∃ e, TrainingSession.construct trainingSource trainer mapping ckFreq ckName
        cvSource cvFreq restore saveAll maxS = Except.error e) ↔
      trainingSource = none ∨ trainer = none ∨ mapping = [] ∨
      (ckName = [] ∧ 0 < ckFreq) ∨ (cvSource = none ∧ 0 < cvFreq) := by
  unfold TrainingSession.construct
  split_ifs with h1 h2 h3 h4 h5 <;>
    simp_all [Option.isNone_iff_eq_none, List.isEmpty_iff, Nat.pos_iff_ne_zero]

/-- The checkpoint check emits either no event or a single non-final save. -/
theorem performCheckPoint_events (cfg : SessionConfig) (ctr : SessionCounters) (S : Nat) :
    (PerformCheckPointIfNeeded cfg ctr S).2 = [] ∨
    (PerformCheckPointIfNeeded cfg ctr S).2 = [Event.saveCheckpoint false] := by
  by_cases hf : cfg.checkpointFrequencyinSamples = 0
  · left; simp [PerformCheckPointIfNeeded, hf]
  · rw [performCheckPoint_spec cfg ctr S hf]
    split
    · right; rfl
    · left; rfl

/-- The cross-validation check emits either no event or a single
cross-validation event. -/
theorem performCrossValidation_events (cfg : SessionConfig) (ctr : SessionCounters)
    (S : Nat) :
    (PerformCrossValidationIfNeeded cfg ctr S).2 = [] ∨
    ∃ i, (PerformCrossValidationIfNeeded cfg ctr S).2 = [Event.crossValidation i] := by
  by_cases hf : cfg.crossValidationFrequencyInSamples = 0
  · left; simp [PerformCrossValidationIfNeeded, hf]
  · rw [performCrossValidation_spec cfg ctr S hf]
    split
    · right; exact ⟨_, rfl⟩
    · left; rfl

/-- The events of one loop iteration, filtered by any predicate that rejects
fetches, checkpoint saves and cross-validations, reduce to the step event. -/
theorem trainIteration_events (cfg : SessionConfig) (ctr : SessionCounters) (s : Nat)
    (o : IterOracle) :
    (TrainIteration cfg ctr s o).2.filter isFinalSave = [] ∧
    (TrainIteration cfg ctr s o).2.filter isTrainStep =
      [Event.trainStep (if s < cfg.maxNumberOfSamples then !o.fetchNonEmpty else true)] ∧
    (TrainIteration cfg ctr s o).2.filter isFetch =
      (if s < cfg.maxNumberOfSamples
       then [Event.fetchTraining (GetTrainingMinibatch cfg s).1
               (GetTrainingMinibatch cfg s).2]
       else []) := by
  rcases performCheckPoint_events cfg ctr o.step.totalSamplesAfter with hck | hck <;>
    rcases performCrossValidation_events cfg
        (PerformCheckPointIfNeeded cfg ctr o.step.totalSamplesAfter).1
        o.step.totalSamplesAfter with hcv | ⟨i, hcv⟩ <;>
      by_cases hs : s < cfg.maxNumberOfSamples <;>
        simp [TrainIteration, hck, hcv, hs, isFinalSave, isTrainStep, isFetch]

/-- A terminating run of the training loop never performs a final
(`last = true`) checkpoint save: those happen only after the loop. -/
theorem trainLoop_no_finalSave (cfg : SessionConfig) :
    ∀ (os : List IterOracle) (ctr : SessionCounters) (s : Nat)
      (r : SessionCounters × List Event),
      TrainLoop cfg ctr s os = some r → r.2.filter isFinalSave = [] := by
  intro os
  induction os with
  | nil => intro ctr s r h; simp [TrainLoop] at h
  | cons o rest ih =>
    intro ctr s r h
    simp only [TrainLoop] at h
    by_cases hc : o.step.continueTraining = true
    · rw [if_pos hc] at h
      cases hrec : TrainLoop cfg (TrainIteration cfg ctr s o).1 o.step.totalSamplesAfter
          rest with
      | none => rw [hrec] at h; cases h
      | some pr =>
        rw [hrec] at h
        cases h
        simp only [List.filter_append, (trainIteration_events cfg ctr s o).1,
          List.nil_append]
        exact ih _ _ pr hrec
    · rw [if_neg hc] at h
      cases h
      exact (trainIteration_events cfg ctr s o).1

/-- C6: with a zero sample budget the trainer's step is never invoked (the
loop body never runs); and on loop exit, whenever the checkpoint frequency is
positive, the trace contains exactly one final (`last = true`) checkpoint
save — also when the loop never ran. -/
theorem Train_zero_budget_and_final_checkpoint :
    (∀ (cfg : SessionConfig) (ctr : SessionCounters) (s : Nat) (os : List IterOracle)
        (r : SessionCounters × List Event), cfg.maxNumberOfSamples = 0 →
        Train cfg ctr s os = some r → countTrainSteps r.2 = 0) ∧
    (∀ (cfg : SessionConfig) (ctr : SessionCounters) (s : Nat) (os : List IterOracle)
        (r : SessionCounters × List Event), 0 < cfg.checkpointFrequencyinSamples →
        Train cfg ctr s os = some r → countFinalSaves r.2 = 1) := by
  constructor
  · intro cfg ctr s os r hb h
    simp only [Train, hb, Nat.lt_irrefl, if_false, ite_false] at h
    cases h
    by_cases hf : cfg.checkpointFrequencyinSamples > 0 <;>
      simp [countTrainSteps, hf, isTrainStep]
  · intro cfg ctr s os r hf h
    simp only [Train, hf, if_true, ite_true] at h
    by_cases hb : cfg.maxNumberOfSamples > 0
    · rw [if_pos hb] at h
      cases hrec : TrainLoop cfg ctr s os with
      | none => rw [hrec] at h; cases h
      | some pr =>
        rw [hrec] at h
        cases h
        simp [countFinalSaves, List.filter_append, trainLoop_no_finalSave cfg os ctr s
          pr hrec, isFinalSave]
    · rw [if_neg hb] at h
      cases h
      simp [countFinalSaves, isFinalSave]

/-- C6 witness: a zero-budget run with checkpoint frequency 30 performs no
train step and exactly one final checkpoint save. -/
theorem Train_zero_budget_and_final_checkpoint_witness :
    cfgZeroBudget.maxNumberOfSamples = 0 ∧
    0 < cfgZeroBudget.checkpointFrequencyinSamples ∧
    countTrainSteps [Event.saveCheckpoint true] = 0 ∧
    countFinalSaves [Event.saveCheckpoint true] = 1 :=
  ⟨by decide, by decide,
   Train_zero_budget_and_final_checkpoint.1 cfgZeroBudget ctrZero 0 []
     (ctrZero, [Event.saveCheckpoint true]) (by decide) (by decide),
   Train_zero_budget_and_final_checkpoint.2 cfgZeroBudget ctrZero 0 []
     (ctrZero, [Event.saveCheckpoint true]) (by decide) (by decide)⟩

/-- C2 counterexample: a two-worker run with a total budget of 10 samples.
The claim allows at most `floor(10 / 2) = 5` new-data fetches per worker, but
the loop fetches new data on all 10 iterations, because line 111 compares the
trainer's global sample count against the full budget — no per-worker quota
exists. -/
theorem Train_exceeds_local_quota :
    (Train cfgQuota ctrZero 0 osQuota).map (fun r => countFetch r.2) = some 10 ∧
    cfgQuota.maxNumberOfSamples / cfgQuota.numberOfWorkers = 5 ∧ ¬(10 ≤ 5) := by
  decide

/-- C2 amended: a worker stops fetching new data exactly when the trainer's
global cumulative sample count has reached the total budget
`m_maxNumberOfSamples` (there is no per-worker division of the budget); from
then on every iteration still calls the trainer's step, with an empty
minibatch, until the trainer signals stop. -/
theorem Train_budget_gate :
    (∀ (cfg : SessionConfig) (ctr : SessionCounters) (s : Nat) (o : IterOracle),
        cfg.maxNumberOfSamples ≤ s →
        (TrainIteration cfg ctr s o).2.filter isFetch = [] ∧
        (TrainIteration cfg ctr s o).2.filter isTrainStep = [Event.trainStep true]) ∧
    (∀ (cfg : SessionConfig) (ctr : SessionCounters) (s : Nat) (o : IterOracle),
        s < cfg.maxNumberOfSamples →
        (TrainIteration cfg ctr s o).2.filter isFetch ≠ []) := by
  constructor
  · intro cfg ctr s o hle
    have hs : ¬(s < cfg.maxNumberOfSamples) := by omega
    refine ⟨?_, ?_⟩
    · rw [(trainIteration_events cfg ctr s o).2.2, if_neg hs]
    · rw [(trainIteration_events cfg ctr s o).2.1, if_neg hs]
  · intro cfg ctr s o hlt
    rw [(trainIteration_events cfg ctr s o).2.2, if_pos hlt]
    simp

/-- C2 amended witness: with budget 5 and the trainer already at 7 global
samples, the iteration fetches nothing and steps with an empty minibatch. -/
theorem Train_budget_gate_witness :
    cfgBudget5.maxNumberOfSamples ≤ 7 ∧
    (TrainIteration cfgBudget5 ctrZero 7 oracleNonEmpty).2.filter isFetch = [] ∧
    (TrainIteration cfgBudget5 ctrZero 7 oracleNonEmpty).2.filter isTrainStep =
      [Event.trainStep true] :=
  ⟨by decide,
   (Train_budget_gate.1 cfgBudget5 ctrZero 7 oracleNonEmpty (by decide)).1,
   (Train_budget_gate.1 cfgBudget5 ctrZero 7 oracleNonEmpty (by decide)).2⟩

/-- One scan step in terms of the candidate filter: invalid entries leave the
state unchanged, valid ones replace it when their value is strictly larger. -/
theorem scanEntry_eq (name : WString) (ex : WString → Bool) (acc : ScanAcc)
    (e : DirEntry) :
    scanEntry name ex acc e =
      if isValidCandidate name ex e then
        (if acc.maxValue < Int.ofNat (suffixValue name e.path)
         then { maxValue := Int.ofNat (suffixValue name e.path), candidate := e.path }
         else acc)
      else acc := by
  unfold scanEntry isValidCandidate suffixValue
  cases hr : e.isRegularFile <;>
    cases hp : List.isPrefixOf name e.path <;>
      cases hn : isNumber (e.path.drop name.length) <;>
        cases hx : ex (e.path ++ ckpExtension) <;>
          simp [hr, hp, hn, hx]

/-- The scan never decreases the recorded maximum value. -/
theorem scanFold_maxValue_mono (name : WString) (ex : WString → Bool) :
    ∀ (l : List DirEntry) (acc : ScanAcc),
      acc.maxValue ≤ (l.foldl (scanEntry name ex) acc).maxValue := by
  intro l
  induction l with
  | nil => intro acc; exact le_refl _
  | cons e rest ih =>
    intro acc
    simp only [List.foldl_cons]
    refine le_trans ?_ (ih (scanEntry name ex acc e))
    rw [scanEntry_eq]
    split
    · split
      · next h => exact le_of_lt h
      · exact le_refl _
    · exact le_refl _

/-- After the scan, the recorded maximum dominates the value of every valid
candidate in the processed list. -/
theorem scanFold_dominates (name : WString) (ex : WString → Bool) :
    ∀ (l : List DirEntry) (acc : ScanAcc) (e : DirEntry), e ∈ l →
      isValidCandidate name ex e = true →
      Int.ofNat (suffixValue name e.path) ≤ (l.foldl (scanEntry name ex) acc).maxValue := by
  intro l
  induction l with
  | nil => intro acc e he; cases he
  | cons a rest ih =>
    intro acc e he hv
    simp only [List.foldl_cons]
    rcases List.mem_cons.mp he with rfl | hmem
    · refine le_trans ?_ (scanFold_maxValue_mono name ex rest _)
      rw [scanEntry_eq, if_pos hv]
      split
      · simp
      · next h => exact le_of_not_lt h
    · exact ih _ e hmem hv

/-- The scan result is either the initial state or the state built from some
valid candidate of the list. -/
theorem scanFold_source (name : WString) (ex : WString → Bool) :
    ∀ (l : List DirEntry) (acc : ScanAcc),
      l.foldl (scanEntry name ex) acc = acc ∨
      ∃ e, e ∈ l ∧ isValidCandidate name ex e = true ∧
        l.foldl (scanEntry name ex) acc =
          { maxValue := Int.ofNat (suffixValue name e.path), candidate := e.path } := by
  intro l
  induction l with
  | nil => intro acc; left; rfl
  | cons a rest ih =>
    intro acc
    simp only [List.foldl_cons]
    rcases ih (scanEntry name ex acc a) with h | ⟨e, hmem, hv, h⟩
    · rw [h, scanEntry_eq]
      by_cases hva : isValidCandidate name ex a = true
      · rw [if_pos hva]
        by_cases hlt : acc.maxValue < Int.ofNat (suffixValue name a.path)
        · right
          exact ⟨a, List.mem_cons_self a rest, hva, by rw [if_pos hlt]⟩
        · left; rw [if_neg hlt]
      · left; rw [if_neg hva]
    · right; exact ⟨e, List.mem_cons_of_mem a hmem, hv, h⟩

/-- A list whose entries are all invalid leaves the scan state unchanged. -/
theorem scanFold_id (name : WString) (ex : WString → Bool) :
    ∀ (l : List DirEntry) (acc : ScanAcc),
      (∀ e ∈ l, isValidCandidate name ex e = false) →
      l.foldl (scanEntry name ex) acc = acc := by
  intro l
  induction l with
  | nil => intro acc _; rfl
  | cons a rest ih =>
    intro acc hall
    simp only [List.foldl_cons]
    rw [scanEntry_eq, if_neg (by simp [hall a (List.mem_cons_self a rest)])]
    exact ih acc fun e he => hall e (List.mem_cons_of_mem a he)

/-- A valid candidate has a non-empty numeric suffix, hence a non-empty path. -/
theorem validCandidate_path_ne_nil (name : WString) (ex : WString → Bool)
    (e : DirEntry) (hv : isValidCandidate name ex e = true) : e.path ≠ [] := by
  intro hnil
  unfold isValidCandidate at hv
  simp only [Bool.and_eq_true] at hv
  have hnum := hv.1.2
  rw [hnil] at hnum
  simp [isNumber, List.drop_nil] at hnum

/-- C5: checkpoint discovery.  If the bare configured path exists the session
restores from it directly.  Otherwise, if no directory entry is a valid
candidate (a regular file whose name starts with the configured path, whose
remaining suffix is entirely numeric — any non-digit disqualifies it via
`isNumber` — and whose `.ckp` marker file exists), the session restores
nothing and starts fresh; and if some valid candidate exists, the session
restores from a valid candidate whose numeric suffix is maximal. -/
theorem RestoreCheckpoint_discovery :
    (∀ (cfg : SessionConfig) (fs : FileSystem),
        fs.fileExists cfg.checkPointFileName = true →
        RestoreCheckpointTarget cfg fs = some cfg.checkPointFileName) ∧
    (∀ (cfg : SessionConfig) (fs : FileSystem),
        fs.fileExists cfg.checkPointFileName = false →
        (∀ e ∈ fs.listing,
          isValidCandidate cfg.checkPointFileName fs.fileExists e = false) →
        RestoreCheckpointTarget cfg fs = none) ∧
    (∀ (cfg : SessionConfig) (fs : FileSystem) (e : DirEntry),
        fs.fileExists cfg.checkPointFileName = false →
        e ∈ fs.listing →
        isValidCandidate cfg.checkPointFileName fs.fileExists e = true →
        ∃ c, c ∈ fs.listing ∧
          isValidCandidate cfg.checkPointFileName fs.fileExists c = true ∧
          RestoreCheckpointTarget cfg fs = some c.path ∧
          suffixValue cfg.checkPointFileName e.path ≤
            suffixValue cfg.checkPointFileName c.path) := by
  refine ⟨?_, ?_, ?_⟩
  · intro cfg fs h
    simp [RestoreCheckpointTarget, h]
  · intro cfg fs h hall
    simp only [RestoreCheckpointTarget, h, Bool.false_eq_true, if_false, ite_false]
    rw [scanFold_id cfg.checkPointFileName fs.fileExists fs.listing _ hall]
    rfl
  · intro cfg fs e h hmem hv
    simp only [RestoreCheckpointTarget, h, Bool.false_eq_true, if_false, ite_false]
    rcases scanFold_source cfg.checkPointFileName fs.fileExists fs.listing
        { maxValue := -1, candidate := [] } with hsrc | ⟨c, hcmem, hcv, hsrc⟩
    · exfalso
      have hd := scanFold_dominates cfg.checkPointFileName fs.fileExists fs.listing
        { maxValue := -1, candidate := [] } e hmem hv
      rw [hsrc] at hd
      simp at hd
      omega
    · refine ⟨c, hcmem, hcv, ?_, ?_⟩
      · rw [hsrc]
        have hne := validCandidate_path_ne_nil cfg.checkPointFileName fs.fileExists c hcv
        cases hpath : c.path with
        | nil => exact absurd hpath hne
        | cons x xs => simp [hpath]
      · have hd := scanFold_dominates cfg.checkPointFileName fs.fileExists fs.listing
          { maxValue := -1, candidate := [] } e hmem hv
        rw [hsrc] at hd
        have hd' : Int.ofNat (suffixValue cfg.checkPointFileName e.path) ≤
            Int.ofNat (suffixValue cfg.checkPointFileName c.path) := hd
        exact Int.ofNat_le.mp hd'

/-- C5 witness: with files `ckpt3`, `ckpt10`, `ckpt2` (each with its `.ckp`
marker) and no bare `ckpt`, discovery restores from a valid candidate whose
numeric suffix dominates that of `ckpt3`. -/
theorem RestoreCheckpoint_discovery_witness :
    fsNumbered.fileExists cfgDiscovery.checkPointFileName = false ∧
    ∃ c, c ∈ fsNumbered.listing ∧
      isValidCandidate cfgDiscovery.checkPointFileName fsNumbered.fileExists c = true ∧
      RestoreCheckpointTarget cfgDiscovery fsNumbered = some c.path ∧
      suffixValue cfgDiscovery.checkPointFileName (wstr "ckpt3") ≤
        suffixValue cfgDiscovery.checkPointFileName c.path :=
  ⟨by decide,
   RestoreCheckpoint_discovery.2.2 cfgDiscovery fsNumbered
     { path := wstr "ckpt3", isRegularFile := true } (by decide) (by decide) (by decide)⟩

end CNTK
